import Mathlib

/-!
Verification development for the shader-program build pipeline, texture
upload, and camera/input update of a small OpenGL tutorial program
(`src/ogl/utils.rs`, `src/ogl/graphics.rs`, `src/main.rs`).

The OpenGL driver is modelled as an oracle (`GLEnv`) that decides the
compile status of each shader handle, the link status of the program, and
the contents of the fixed preallocated info-log buffers after the
corresponding `Get*InfoLog` call.  Each embedded function threads an
explicit `GLState` that records the fresh-handle counter and the trace of
driver calls, so that claims about which driver operations happen on which
path ("does not attempt linking", "the handle is released") are statable.
Rust `String` values are modelled by their UTF-8 byte sequences
(`List Nat`), which makes Rust string equality exactly list equality; a
Rust panic (`unwrap` failure, out-of-bounds index) is modelled by `none`
in an `Option` layer around the `Result`.
-/

/-- UTF-8 bytes of a Rust `String`; for the ASCII literals appearing in the
source this is just the list of character codes. -/
def rstr (s : String) : List Nat := s.data.map Char.toNat

/-- Whether `c` is a UTF-8 continuation byte (`0x80..0xBF`). -/
def contByte (c : Nat) : Bool := decide (0x80 ≤ c ∧ c ≤ 0xBF)

/-- RFC 3629 UTF-8 validity of a byte sequence, the check performed by
Rust's `String::from_utf8` (rejecting overlong forms, surrogates and
code points above U+10FFFF). -/
def utf8Valid : List Nat → Bool
  | [] => true
  | b :: r =>
    if b ≤ 0x7F then utf8Valid r
    else if b < 0xC2 then false
    else if b ≤ 0xDF then
      match r with
      | c :: r2 => contByte c && utf8Valid r2
      | [] => false
    else if b ≤ 0xEF then
      match r with
      | c :: d :: r2 =>
        let lo := if b = 0xE0 then 0xA0 else 0x80
        let hi := if b = 0xED then 0x9F else 0xBF
        (decide (lo ≤ c ∧ c ≤ hi) && contByte d) && utf8Valid r2
      | _ => false
    else if b ≤ 0xF4 then
      match r with
      | c :: d :: e :: r2 =>
        let lo := if b = 0xF0 then 0x90 else 0x80
        let hi := if b = 0xF4 then 0x8F else 0xBF
        ((decide (lo ≤ c ∧ c ≤ hi) && contByte d) && contByte e) && utf8Valid r2
      | _ => false
    else false

/-- The two shader stage kinds passed to `gl::CreateShader`
(`gl::VERTEX_SHADER` / `gl::FRAGMENT_SHADER`). -/
inductive ShaderKind where
  | vertex
  | fragment
  deriving DecidableEq, Repr

/-- One recorded driver call. -/
inductive GLEvent where
  | createShader (kind : ShaderKind) (id : Nat)
  | shaderSource (id : Nat)
  | compileShader (id : Nat)
  | getShaderInfoLog (id : Nat)
  | deleteShader (id : Nat)
  | createProgram (id : Nat)
  | attachShader (pid sid : Nat)
  | linkProgram (pid : Nat)
  | getProgramInfoLog (pid : Nat)
  deriving DecidableEq, Repr

/-- Driver oracle: compile status per shader handle, link status, and the
contents of the 511-byte preallocated log buffers as observed by the Rust
code after the corresponding `Get*InfoLog` call (driver-written log bytes
followed by whatever the rest of the allocation held). -/
structure GLEnv where
  compileOk : Nat → Bool
  linkOk : Bool
  shaderLogBuf : Nat → List Nat
  programLogBuf : List Nat

/-- Explicit driver-side state threaded through the embedding: the next
fresh object handle and the trace of driver calls so far. -/
structure GLState where
  nextId : Nat
  events : List GLEvent
  deriving DecidableEq, Repr

/-- Append one driver call to the trace. -/
def GLState.push (s : GLState) (e : GLEvent) : GLState :=
  { s with events := s.events ++ [e] }

/-- Allocate a fresh driver handle. -/
def GLState.fresh (s : GLState) : Nat × GLState :=
  (s.nextId, { s with nextId := s.nextId + 1 })

/-- Result of a Rust call that may panic (`none`) or return
`Result<α, String>`. -/
abbrev RustRes (α : Type) := Option (Except (List Nat) α)

/-- Embeds `get_shader_compile_status` (src/ogl/utils.rs): read
`COMPILE_STATUS`; on failure read the info log into the 511-byte buffer and
build `"Shader compilation failed: {log}"` via `String::from_utf8(..).unwrap()`,
which panics when the buffer bytes are not valid UTF-8. -/
def get_shader_compile_status (env : GLEnv) (shader_id : Nat) (s : GLState) :
    RustRes Unit × GLState :=
  if env.compileOk shader_id then (some (.ok ()), s)
  else
    let s := s.push (.getShaderInfoLog shader_id)
    let buf := env.shaderLogBuf shader_id
    if utf8Valid buf then
      (some (.error (rstr "Shader compilation failed: " ++ buf)), s)
    else (none, s)

/-- Embeds `build_shader` (src/ogl/utils.rs): `CString::new(..).unwrap()`
(panics on an interior NUL byte in the source), `CreateShader`,
`ShaderSource`, `CompileShader`, then `get_shader_compile_status`. -/
def build_shader (env : GLEnv) (shader : List Nat) (kind : ShaderKind)
    (s : GLState) : RustRes Nat × GLState :=
  if 0 ∈ shader then (none, s)
  else
    let (shader_id, s) := s.fresh
    let s := (((s.push (.createShader kind shader_id)).push
      (.shaderSource shader_id)).push (.compileShader shader_id))
    match get_shader_compile_status env shader_id s with
    | (some (.ok ()), s) => (some (.ok shader_id), s)
    | (some (.error msg), s) => (some (.error msg), s)
    | (none, s) => (none, s)

/-- Embeds `clean_shader` (src/ogl/utils.rs): `gl::DeleteShader`. -/
def clean_shader (shader_id : Nat) (s : GLState) : GLState :=
  s.push (.deleteShader shader_id)

/-- Embeds `build_program` (src/ogl/utils.rs): `CreateProgram`, attach both
stages, `LinkProgram`; on link failure read the program info log into the
511-byte buffer and build `"Program build failed: {log}"` via
`String::from_utf8(..).unwrap()` (panics on non-UTF-8 buffer bytes). -/
def build_program (env : GLEnv) (vertex_shader_id fragment_shader_id : Nat)
    (s : GLState) : RustRes Nat × GLState :=
  let (program_id, s) := s.fresh
  let s := (((s.push (.createProgram program_id)).push
    (.attachShader program_id vertex_shader_id)).push
    (.attachShader program_id fragment_shader_id)).push
    (.linkProgram program_id)
  if env.linkOk then (some (.ok program_id), s)
  else
    let s := s.push (.getProgramInfoLog program_id)
    if utf8Valid env.programLogBuf then
      (some (.error (rstr "Program build failed: " ++ env.programLogBuf)), s)
    else (none, s)

/-- A linked shader program (src/ogl/graphics.rs). -/
structure ShaderProgram where
  id : Nat
  deriving DecidableEq, Repr

/-- Embeds `ShaderProgram::with_shaders` (src/ogl/graphics.rs): the
`and_then` chain compiling the vertex stage, then the fragment stage, then
linking, and deleting both stage handles only after a successful link.
`Err` and panics short-circuit the chain exactly as in the source. -/
def ShaderProgram.with_shaders (env : GLEnv)
    (vertex_shader_src fragment_shader_src : List Nat) :
    RustRes ShaderProgram × GLState :=
  let s0 : GLState := ⟨1, []⟩
  match build_shader env vertex_shader_src .vertex s0 with
  | (none, s) => (none, s)
  | (some (.error msg), s) => (some (.error msg), s)
  | (some (.ok vertex_shader), s) =>
    match build_shader env fragment_shader_src .fragment s with
    | (none, s) => (none, s)
    | (some (.error msg), s) => (some (.error msg), s)
    | (some (.ok fragment_shader), s) =>
      match build_program env vertex_shader fragment_shader s with
      | (none, s) => (none, s)
      | (some (.error msg), s) => (some (.error msg), s)
      | (some (.ok program_id), s) =>
        let s := clean_shader vertex_shader s
        let s := clean_shader fragment_shader s
        (some (.ok ⟨program_id⟩), s)

/-- A 2-D texture (src/ogl/graphics.rs): driver handle, dimensions and the
CPU-side RGB pixel data (3 bytes per pixel). -/
structure Texture where
  id : Nat
  width : Nat
  height : Nat
  data : List (Nat × Nat × Nat)
  deriving DecidableEq, Repr

/-- Embeds `Texture::load` (src/ogl/graphics.rs): binds and configures the
texture, uploads via `TexImage2D` passing `self.data[0].as_ptr()` — an
indexing that panics when `data` is empty — and then clears `data`.
`none` models the panic. -/
def Texture.load (t : Texture) : Option Texture :=
  match t.data with
  | [] => none
  | _ :: _ => some { t with data := [] }

/-!
Camera and input model (src/main.rs, src/ogl/graphics.rs).  The `f32`
arithmetic of the source is modelled over the real numbers; vectors are
triples of reals and the linear-algebra collaborator's operations
(`normalize_mut`, `cross`, `clamp_scalar`, `look_at`) are given their
mathematical definitions.
-/

/-- A 3-vector of reals, modelling `glm::Vec3`. -/
@[ext]
structure V3 where
  x : ℝ
  y : ℝ
  z : ℝ

instance : Add V3 := ⟨fun a b => ⟨a.x + b.x, a.y + b.y, a.z + b.z⟩⟩
instance : Sub V3 := ⟨fun a b => ⟨a.x - b.x, a.y - b.y, a.z - b.z⟩⟩
instance : SMul ℝ V3 := ⟨fun r v => ⟨r * v.x, r * v.y, r * v.z⟩⟩
instance : Zero V3 := ⟨⟨0, 0, 0⟩⟩

theorem V3.add_def (a b : V3) : a + b = ⟨a.x + b.x, a.y + b.y, a.z + b.z⟩ := rfl

theorem V3.sub_def (a b : V3) : a - b = ⟨a.x - b.x, a.y - b.y, a.z - b.z⟩ := rfl

theorem V3.smul_def (r : ℝ) (v : V3) : r • v = ⟨r * v.x, r * v.y, r * v.z⟩ := rfl

theorem V3.zero_def : (0 : V3) = ⟨0, 0, 0⟩ := rfl

/-- Euclidean norm of a `V3` (`glm` vector magnitude). -/
noncomputable def vnorm (v : V3) : ℝ := Real.sqrt (v.x ^ 2 + v.y ^ 2 + v.z ^ 2)

/-- `glm` normalization: divide each component by the norm
(`normalize_mut` / `.normalize()`). -/
noncomputable def normalizeV (v : V3) : V3 :=
  ⟨v.x / vnorm v, v.y / vnorm v, v.z / vnorm v⟩

/-- `glm` cross product of two 3-vectors. -/
def cross (a b : V3) : V3 :=
  ⟨a.y * b.z - a.z * b.y, a.z * b.x - a.x * b.z, a.x * b.y - a.y * b.x⟩

/-- `glm` dot product of two 3-vectors. -/
def dot (a b : V3) : ℝ := a.x * b.x + a.y * b.y + a.z * b.z

/-- `nalgebra_glm::clamp_scalar`: `min` when below, `max` when above,
identity otherwise. -/
noncomputable def clamp_scalar (val min max : ℝ) : ℝ :=
  if val < min then min else if val > max then max else val

/-- `f32::to_radians`: degrees to radians. -/
noncomputable def to_radians (x : ℝ) : ℝ := x * Real.pi / 180

/-- The camera state (src/ogl/graphics.rs). -/
@[ext]
structure Camera where
  position : V3
  front : V3
  up : V3
  yaw : ℝ
  pitch : ℝ

/-- The input-tracking state (src/main.rs `InputState`, with
`MouseInputState` as a pair). -/
@[ext]
structure InputState where
  mouse : Option (ℝ × ℝ)
  move_speed : ℝ
  mouse_sensitivity : ℝ

/-- The front-vector recomputation of the cursor-event handler: the
spherical direction built from yaw and pitch before normalization. -/
noncomputable def sphericalDir (yaw pitch : ℝ) : V3 :=
  ⟨Real.cos (to_radians yaw) * Real.cos (to_radians pitch),
   Real.sin (to_radians pitch),
   Real.sin (to_radians yaw) * Real.cos (to_radians pitch)⟩

/-- Embeds the `WindowEvent::CursorPos` branch of `process_events`
(src/main.rs): initialize `input_state.mouse` when absent, compute the
offsets against the last mouse position, scale by the sensitivity, add to
yaw, clamp pitch to `[-89, 89]`, recompute and normalize `front`, and
store the new mouse position. -/
noncomputable def processCursorPos (camera : Camera) (input_state : InputState)
    (mouse_x mouse_y : ℝ) : Camera × InputState :=
  let input_state :=
    match input_state.mouse with
    | none => { input_state with mouse := some (mouse_x, mouse_y) }
    | some _ => input_state
  let last_mouse := input_state.mouse.getD (mouse_x, mouse_y)
  let x_offset := mouse_x - last_mouse.1
  let y_offset := last_mouse.2 - mouse_y
  let yaw_offset := x_offset * input_state.mouse_sensitivity
  let pitch_offset := y_offset * input_state.mouse_sensitivity
  let yaw := camera.yaw + yaw_offset
  let pitch := clamp_scalar (camera.pitch + pitch_offset) (-89) 89
  let camera_front := normalizeV (sphericalDir yaw pitch)
  ({ camera with yaw := yaw, pitch := pitch, front := camera_front },
   { input_state with mouse := some (mouse_x, mouse_y) })

/-- The per-frame key-press snapshot consumed by `process_inputs`
(`window.get_key` on W, S, A, D). -/
structure Keys where
  w : Bool
  s : Bool
  a : Bool
  d : Bool

/-- Embeds `process_inputs` (src/main.rs): for each pressed movement key,
translate the camera position along `front` or along the normalized cross
product of `front` and `up`, scaled by `delta_time * move_speed`, in the
fixed order W, S, A, D. -/
noncomputable def process_inputs (keys : Keys) (camera : Camera)
    (input_state : InputState) (delta_time : ℝ) : Camera :=
  let camera_speed := delta_time * input_state.move_speed
  let p := camera.position
  let p := if keys.w then p + camera_speed • camera.front else p
  let p := if keys.s then p - camera_speed • camera.front else p
  let p := if keys.a then
    p - camera_speed • normalizeV (cross camera.front camera.up) else p
  let p := if keys.d then
    p + camera_speed • normalizeV (cross camera.front camera.up) else p
  { camera with position := p }

/-- A 4×4 real matrix (row-major fields), modelling `glm::Mat4`. -/
structure Mat4 where
  m00 : ℝ
  m01 : ℝ
  m02 : ℝ
  m03 : ℝ
  m10 : ℝ
  m11 : ℝ
  m12 : ℝ
  m13 : ℝ
  m20 : ℝ
  m21 : ℝ
  m22 : ℝ
  m23 : ℝ
  m30 : ℝ
  m31 : ℝ
  m32 : ℝ
  m33 : ℝ

/-- Modelled from the spec: the external linear-algebra collaborator's
`glm::look_at` (right-handed view transform built from an eye point, a
look target and an up reference: forward, side and corrected-up axes with
the translation row from the eye point). -/
noncomputable def look_at (eye center up : V3) : Mat4 :=
  let f := normalizeV (center - eye)
  let s := normalizeV (cross f up)
  let u := cross s f
  ⟨s.x, s.y, s.z, -(dot s eye),
   u.x, u.y, u.z, -(dot u eye),
   -f.x, -f.y, -f.z, dot f eye,
   0, 0, 0, 1⟩

/-- Embeds `Camera::view_matrix` (src/ogl/graphics.rs): the look-at
transform of `position`, `position + front` and `up`. -/
noncomputable def Camera.view_matrix (c : Camera) : Mat4 :=
  look_at c.position (c.position + c.front) c.up

/-- Folding a sequence of cursor events through `processCursorPos`. -/
noncomputable def applyMoves (start : Camera × InputState) :
    List (ℝ × ℝ) → Camera × InputState
  | [] => start
  | m :: rest => applyMoves (processCursorPos start.1 start.2 m.1 m.2) rest

/-!
Path characterization of `ShaderProgram.with_shaders`: exact result and
driver-call trace on each of the four control-flow paths.
-/

/-- Result and trace when the vertex stage fails to compile. -/
theorem ws_vertex_fail (env : GLEnv) (vsrc fsrc : List Nat) (h0v : 0 ∉ vsrc)
    (hc : env.compileOk 1 = false) :
    ShaderProgram.with_shaders env vsrc fsrc =
      ((if utf8Valid (env.shaderLogBuf 1) then
          some (.error (rstr "Shader compilation failed: " ++ env.shaderLogBuf 1))
        else none),
       ⟨2, [.createShader .vertex 1, .shaderSource 1, .compileShader 1,
            .getShaderInfoLog 1]⟩) := by
  by_cases hu : utf8Valid (env.shaderLogBuf 1) <;>
    simp [ShaderProgram.with_shaders, build_shader, get_shader_compile_status,
      GLState.fresh, GLState.push, h0v, hc, hu]

/-- Result and trace when the vertex stage compiles and the fragment stage
fails to compile. -/
theorem ws_frag_fail (env : GLEnv) (vsrc fsrc : List Nat) (h0v : 0 ∉ vsrc)
    (h0f : 0 ∉ fsrc) (hc1 : env.compileOk 1 = true)
    (hc2 : env.compileOk 2 = false) :
    ShaderProgram.with_shaders env vsrc fsrc =
      ((if utf8Valid (env.shaderLogBuf 2) then
          some (.error (rstr "Shader compilation failed: " ++ env.shaderLogBuf 2))
        else none),
       ⟨3, [.createShader .vertex 1, .shaderSource 1, .compileShader 1,
            .createShader .fragment 2, .shaderSource 2, .compileShader 2,
            .getShaderInfoLog 2]⟩) := by
  by_cases hu : utf8Valid (env.shaderLogBuf 2) <;>
    simp [ShaderProgram.with_shaders, build_shader, get_shader_compile_status,
      GLState.fresh, GLState.push, h0v, h0f, hc1, hc2, hu]

/-- Result and trace when both stages compile and linking fails. -/
theorem ws_link_fail (env : GLEnv) (vsrc fsrc : List Nat) (h0v : 0 ∉ vsrc)
    (h0f : 0 ∉ fsrc) (hc1 : env.compileOk 1 = true)
    (hc2 : env.compileOk 2 = true) (hl : env.linkOk = false) :
    ShaderProgram.with_shaders env vsrc fsrc =
      ((if utf8Valid env.programLogBuf then
          some (.error (rstr "Program build failed: " ++ env.programLogBuf))
        else none),
       ⟨4, [.createShader .vertex 1, .shaderSource 1, .compileShader 1,
            .createShader .fragment 2, .shaderSource 2, .compileShader 2,
            .createProgram 3, .attachShader 3 1, .attachShader 3 2,
            .linkProgram 3, .getProgramInfoLog 3]⟩) := by
  by_cases hu : utf8Valid env.programLogBuf <;>
    simp [ShaderProgram.with_shaders, build_shader, get_shader_compile_status,
      build_program, GLState.fresh, GLState.push, h0v, h0f, hc1, hc2, hl, hu]

/-- Result and trace when both stages compile and linking succeeds. -/
theorem ws_success (env : GLEnv) (vsrc fsrc : List Nat) (h0v : 0 ∉ vsrc)
    (h0f : 0 ∉ fsrc) (hc1 : env.compileOk 1 = true)
    (hc2 : env.compileOk 2 = true) (hl : env.linkOk = true) :
    ShaderProgram.with_shaders env vsrc fsrc =
      (some (.ok ⟨3⟩),
       ⟨4, [.createShader .vertex 1, .shaderSource 1, .compileShader 1,
            .createShader .fragment 2, .shaderSource 2, .compileShader 2,
            .createProgram 3, .attachShader 3 1, .attachShader 3 2,
            .linkProgram 3, .deleteShader 1, .deleteShader 2]⟩) := by
  simp [ShaderProgram.with_shaders, build_shader, get_shader_compile_status,
    build_program, clean_shader, GLState.fresh, GLState.push, h0v, h0f,
    hc1, hc2, hl]

/-- Driver oracle failing every shader compilation, with log bytes `[65]`. -/
def envVFail : GLEnv := ⟨fun _ => false, true, fun _ => [65], [66]⟩

/-- Driver oracle compiling only shader 1 (the vertex stage), with the same
log bytes `[65]`. -/
def envFFail : GLEnv := ⟨fun i => i == 1, true, fun _ => [65], [66]⟩

/-- Driver oracle compiling both stages but failing the link. -/
def envLFail : GLEnv := ⟨fun _ => true, false, fun _ => [65], [66]⟩

/-- Driver oracle accepting everything. -/
def envOk : GLEnv := ⟨fun _ => true, true, fun _ => [65], [66]⟩

/-- Driver oracle failing vertex compilation and leaving non-UTF-8 bytes
(`0xFF`) in the log buffer. -/
def envVPanic : GLEnv := ⟨fun _ => false, true, fun _ => [255], [255]⟩

/-- C1 counterexample: a run in which vertex compilation fails and a run in
which the vertex stage compiles but fragment compilation fails (with the
same driver log bytes) return identical error values, so the caller cannot
distinguish the vertex-compile failure from the fragment-compile failure. -/
theorem c1_counterexample :
    (ShaderProgram.with_shaders envVFail [97] [98]).1 =
      (ShaderProgram.with_shaders envFFail [97] [98]).1 ∧
    (ShaderProgram.with_shaders envVFail [97] [98]).1 =
      some (.error (rstr "Shader compilation failed: " ++ [65])) ∧
    envVFail.compileOk 1 = false ∧
    envFFail.compileOk 1 = true ∧ envFFail.compileOk 2 = false :=
  ⟨rfl, rfl, rfl, rfl, rfl⟩

/-- C1 (amended): build is failure-isolating — on vertex compile failure it
returns a compile error without compiling the fragment stage or attempting
a link (the trace stops at the vertex stage); on fragment compile failure
it returns a compile error without attempting a link; on link failure it
returns a link error; the link error is distinguishable from the two
compile errors by its message, but the vertex and fragment compile errors
share the `"Shader compilation failed: "` message shape and are not
distinguishable from each other. -/
theorem c1_theorem (env : GLEnv) (vsrc fsrc : List Nat) (h0v : 0 ∉ vsrc)
    (h0f : 0 ∉ fsrc) :
    (env.compileOk 1 = false → utf8Valid (env.shaderLogBuf 1) = true →
      (ShaderProgram.with_shaders env vsrc fsrc).1 =
        some (.error (rstr "Shader compilation failed: " ++ env.shaderLogBuf 1)) ∧
      (ShaderProgram.with_shaders env vsrc fsrc).2.events =
        [.createShader .vertex 1, .shaderSource 1, .compileShader 1,
         .getShaderInfoLog 1]) ∧
    (env.compileOk 1 = true → env.compileOk 2 = false →
      utf8Valid (env.shaderLogBuf 2) = true →
      (ShaderProgram.with_shaders env vsrc fsrc).1 =
        some (.error (rstr "Shader compilation failed: " ++ env.shaderLogBuf 2)) ∧
      (ShaderProgram.with_shaders env vsrc fsrc).2.events =
        [.createShader .vertex 1, .shaderSource 1, .compileShader 1,
         .createShader .fragment 2, .shaderSource 2, .compileShader 2,
         .getShaderInfoLog 2]) ∧
    (env.compileOk 1 = true → env.compileOk 2 = true → env.linkOk = false →
      utf8Valid env.programLogBuf = true →
      (ShaderProgram.with_shaders env vsrc fsrc).1 =
        some (.error (rstr "Program build failed: " ++ env.programLogBuf))) ∧
    (∀ llog clog : List Nat,
      rstr "Program build failed: " ++ llog ≠
        rstr "Shader compilation failed: " ++ clog) := by
  refine ⟨fun hc hu => ?_, fun hc1 hc2 hu => ?_, fun hc1 hc2 hl hu => ?_,
    fun llog clog h => ?_⟩
  · rw [ws_vertex_fail env vsrc fsrc h0v hc]
    simp [hu]
  · rw [ws_frag_fail env vsrc fsrc h0v h0f hc1 hc2]
    simp [hu]
  · rw [ws_link_fail env vsrc fsrc h0v h0f hc1 hc2 hl]
    simp [hu]
  · have h1 : (rstr "Program build failed: " ++ llog).head? = some 80 := rfl
    have h2 : (rstr "Shader compilation failed: " ++ clog).head? = some 83 := rfl
    rw [h] at h1
    rw [h1] at h2
    simp at h2

/-- C1 witness: the amended theorem applied to a concrete driver oracle
that fails vertex compilation with log bytes `[65]`. -/
theorem c1_witness :
    (ShaderProgram.with_shaders envVFail [97] [98]).1 =
      some (.error (rstr "Shader compilation failed: " ++ envVFail.shaderLogBuf 1)) ∧
    (ShaderProgram.with_shaders envVFail [97] [98]).2.events =
      [.createShader .vertex 1, .shaderSource 1, .compileShader 1,
       .getShaderInfoLog 1] :=
  (c1_theorem envVFail [97] [98] (by decide) (by decide)).1 rfl rfl

/-- C2 counterexample: when linking fails, `with_shaders` returns its error
with both created stage handles never deleted — the trace holds both
`createShader` calls and no `deleteShader` call. -/
theorem c2_counterexample :
    GLEvent.createShader .vertex 1 ∈
      (ShaderProgram.with_shaders envLFail [97] [98]).2.events ∧
    GLEvent.createShader .fragment 2 ∈
      (ShaderProgram.with_shaders envLFail [97] [98]).2.events ∧
    GLEvent.deleteShader 1 ∉
      (ShaderProgram.with_shaders envLFail [97] [98]).2.events ∧
    GLEvent.deleteShader 2 ∉
      (ShaderProgram.with_shaders envLFail [97] [98]).2.events ∧
    (ShaderProgram.with_shaders envLFail [97] [98]).1 =
      some (.error (rstr "Program build failed: " ++ [66])) :=
  ⟨by decide, by decide, by decide, by decide, rfl⟩

/-- C2 (amended): stage handles are released only on the fully successful
path — when both compilations and the link succeed, both stage handles are
deleted before return; on every failure path (vertex compile, fragment
compile, or link failure) no created stage handle is deleted. -/
theorem c2_theorem (env : GLEnv) (vsrc fsrc : List Nat) (h0v : 0 ∉ vsrc)
    (h0f : 0 ∉ fsrc) :
    (env.compileOk 1 = true → env.compileOk 2 = true → env.linkOk = true →
      GLEvent.deleteShader 1 ∈
        (ShaderProgram.with_shaders env vsrc fsrc).2.events ∧
      GLEvent.deleteShader 2 ∈
        (ShaderProgram.with_shaders env vsrc fsrc).2.events) ∧
    (env.compileOk 1 = false →
      ∀ i, GLEvent.deleteShader i ∉
        (ShaderProgram.with_shaders env vsrc fsrc).2.events) ∧
    (env.compileOk 1 = true → env.compileOk 2 = false →
      ∀ i, GLEvent.deleteShader i ∉
        (ShaderProgram.with_shaders env vsrc fsrc).2.events) ∧
    (env.compileOk 1 = true → env.compileOk 2 = true → env.linkOk = false →
      ∀ i, GLEvent.deleteShader i ∉
        (ShaderProgram.with_shaders env vsrc fsrc).2.events) := by
  refine ⟨fun hc1 hc2 hl => ?_, fun hc i => ?_, fun hc1 hc2 i => ?_,
    fun hc1 hc2 hl i => ?_⟩
  · rw [ws_success env vsrc fsrc h0v h0f hc1 hc2 hl]
    simp
  · rw [ws_vertex_fail env vsrc fsrc h0v hc]
    simp
  · rw [ws_frag_fail env vsrc fsrc h0v h0f hc1 hc2]
    simp
  · rw [ws_link_fail env vsrc fsrc h0v h0f hc1 hc2 hl]
    simp

/-- C2 witness: the amended theorem applied to an all-accepting driver
oracle (successful path deletes both handles) . -/
theorem c2_witness :
    GLEvent.deleteShader 1 ∈
      (ShaderProgram.with_shaders envOk [97] [98]).2.events ∧
    GLEvent.deleteShader 2 ∈
      (ShaderProgram.with_shaders envOk [97] [98]).2.events :=
  (c2_theorem envOk [97] [98] (by decide) (by decide)).1 rfl rfl rfl

/-- C9: each failing path builds its diagnostic by decoding the
preallocated log buffer as UTF-8 with an unchecked unwrap, so the build
returns an `Err` only when the buffer bytes used on that path are valid
UTF-8, and panics on that path when they are not. -/
theorem c9_theorem (env : GLEnv) (vsrc fsrc : List Nat) (h0v : 0 ∉ vsrc)
    (h0f : 0 ∉ fsrc) :
    (env.compileOk 1 = false → utf8Valid (env.shaderLogBuf 1) = false →
      (ShaderProgram.with_shaders env vsrc fsrc).1 = none) ∧
    (env.compileOk 1 = true → env.compileOk 2 = false →
      utf8Valid (env.shaderLogBuf 2) = false →
      (ShaderProgram.with_shaders env vsrc fsrc).1 = none) ∧
    (env.compileOk 1 = true → env.compileOk 2 = true → env.linkOk = false →
      utf8Valid env.programLogBuf = false →
      (ShaderProgram.with_shaders env vsrc fsrc).1 = none) ∧
    (∀ msg, (ShaderProgram.with_shaders env vsrc fsrc).1 =
        some (.error msg) →
      (env.compileOk 1 = false ∧ utf8Valid (env.shaderLogBuf 1) = true) ∨
      (env.compileOk 1 = true ∧ env.compileOk 2 = false ∧
        utf8Valid (env.shaderLogBuf 2) = true) ∨
      (env.compileOk 1 = true ∧ env.compileOk 2 = true ∧
        env.linkOk = false ∧ utf8Valid env.programLogBuf = true)) := by
  refine ⟨fun hc hu => ?_, fun hc1 hc2 hu => ?_, fun hc1 hc2 hl hu => ?_,
    fun msg hmsg => ?_⟩
  · rw [ws_vertex_fail env vsrc fsrc h0v hc]
    simp [hu]
  · rw [ws_frag_fail env vsrc fsrc h0v h0f hc1 hc2]
    simp [hu]
  · rw [ws_link_fail env vsrc fsrc h0v h0f hc1 hc2 hl]
    simp [hu]
  · by_cases hc1 : env.compileOk 1
    · by_cases hc2 : env.compileOk 2
      · by_cases hl : env.linkOk
        · rw [ws_success env vsrc fsrc h0v h0f hc1 hc2 hl] at hmsg
          simp at hmsg
        · rw [ws_link_fail env vsrc fsrc h0v h0f hc1 hc2
            (by simp [hl])] at hmsg
          by_cases hu : utf8Valid env.programLogBuf
          · exact Or.inr (Or.inr ⟨hc1, hc2, by simp [hl], hu⟩)
          · simp [hu] at hmsg
      · rw [ws_frag_fail env vsrc fsrc h0v h0f hc1 (by simp [hc2])] at hmsg
        by_cases hu : utf8Valid (env.shaderLogBuf 2)
        · exact Or.inr (Or.inl ⟨hc1, by simp [hc2], hu⟩)
        · simp [hu] at hmsg
    · rw [ws_vertex_fail env vsrc fsrc h0v (by simp [hc1])] at hmsg
      by_cases hu : utf8Valid (env.shaderLogBuf 1)
      · exact Or.inl ⟨by simp [hc1], hu⟩
      · simp [hu] at hmsg

/-- C9 witness: with a driver oracle failing vertex compilation and leaving
the invalid byte `0xFF` in the log buffer, the build panics (`none`)
instead of returning an `Err`. -/
theorem c9_witness :
    (ShaderProgram.with_shaders envVPanic [97] [98]).1 = none :=
  (c9_theorem envVPanic [97] [98] (by decide) (by decide)).1 rfl rfl

/-- C8: `Texture::load` panics exactly when the pixel data is empty (the
`self.data[0]` indexing is out of bounds); with non-empty data it succeeds,
leaves `id`, `width` and `height` unchanged and empties `data` — so a
second `load` on the same texture always panics. -/
theorem c8_theorem (t : Texture) :
    (t.data = [] → t.load = none) ∧
    (t.data ≠ [] → t.load = some ⟨t.id, t.width, t.height, []⟩) ∧
    (∀ t2, t.load = some t2 → t2.load = none) := by
  refine ⟨fun h => ?_, fun h => ?_, fun t2 h => ?_⟩
  · simp [Texture.load, h]
  · cases ht : t.data with
    | nil => exact absurd ht h
    | cons p r => simp [Texture.load, ht]
  · cases ht : t.data with
    | nil => simp [Texture.load, ht] at h
    | cons p r =>
      simp [Texture.load, ht] at h
      simp [← h, Texture.load]

/-- C8 witness: a texture with one pixel loads successfully, keeping its
handle and dimensions and emptying the data. -/
theorem c8_witness :
    Texture.load ⟨7, 1, 1, [(10, 20, 30)]⟩ = some ⟨7, 1, 1, []⟩ :=
  (c8_theorem ⟨7, 1, 1, [(10, 20, 30)]⟩).2.1 (by decide)

/-!
Camera helper lemmas.
-/

/-- `clamp_scalar` lands in `[min, max]` whenever `min ≤ max`. -/
theorem clamp_scalar_mem (val min max : ℝ) (h : min ≤ max) :
    min ≤ clamp_scalar val min max ∧ clamp_scalar val min max ≤ max := by
  unfold clamp_scalar
  split_ifs with h1 h2 <;> constructor <;> linarith

/-- The spherical direction built from yaw and pitch already has unit
norm (Pythagorean identity). -/
theorem vnorm_sphericalDir (yaw pitch : ℝ) :
    vnorm (sphericalDir yaw pitch) = 1 := by
  unfold vnorm sphericalDir
  have h1 := Real.sin_sq_add_cos_sq (to_radians yaw)
  have h2 := Real.sin_sq_add_cos_sq (to_radians pitch)
  have key : Real.cos (to_radians yaw) * Real.cos (to_radians pitch) ^ 2 *
      Real.cos (to_radians yaw) + Real.sin (to_radians pitch) ^ 2 +
      Real.sin (to_radians yaw) * Real.cos (to_radians pitch) ^ 2 *
      Real.sin (to_radians yaw) = 1 := by nlinarith [h1, h2]
  rw [show (Real.cos (to_radians yaw) * Real.cos (to_radians pitch)) ^ 2 +
      Real.sin (to_radians pitch) ^ 2 +
      (Real.sin (to_radians yaw) * Real.cos (to_radians pitch)) ^ 2 =
      Real.cos (to_radians yaw) * Real.cos (to_radians pitch) ^ 2 *
      Real.cos (to_radians yaw) + Real.sin (to_radians pitch) ^ 2 +
      Real.sin (to_radians yaw) * Real.cos (to_radians pitch) ^ 2 *
      Real.sin (to_radians yaw) by ring, key]
  exact Real.sqrt_one

/-- Normalizing a vector that already has unit norm is the identity. -/
theorem normalizeV_of_vnorm_one (v : V3) (h : vnorm v = 1) :
    normalizeV v = v := by
  unfold normalizeV
  rw [h]
  ext <;> simp

/-- The cursor handler on an empty last-mouse state: yaw is unchanged,
pitch is clamped, front is recomputed from the unchanged yaw and the
clamped pitch, and the mouse position is recorded. -/
theorem pcp_none (c : Camera) (st : InputState) (x y : ℝ)
    (h : st.mouse = none) :
    processCursorPos c st x y =
      ({ c with
          pitch := clamp_scalar c.pitch (-89) 89,
          front := normalizeV
            (sphericalDir c.yaw (clamp_scalar c.pitch (-89) 89)) },
       { st with mouse := some (x, y) }) := by
  simp only [processCursorPos, h]
  norm_num

/-- The cursor handler on a populated last-mouse state `(lx, ly)`:
yaw gains `(x - lx) * sensitivity`, pitch gains `(ly - y) * sensitivity`
and is clamped, front is recomputed from the new angles and normalized,
and the mouse position is recorded. -/
theorem pcp_some (c : Camera) (st : InputState) (lx ly x y : ℝ)
    (h : st.mouse = some (lx, ly)) :
    processCursorPos c st x y =
      ({ c with
          yaw := c.yaw + (x - lx) * st.mouse_sensitivity,
          pitch := clamp_scalar
            (c.pitch + (ly - y) * st.mouse_sensitivity) (-89) 89,
          front := normalizeV (sphericalDir
            (c.yaw + (x - lx) * st.mouse_sensitivity)
            (clamp_scalar
              (c.pitch + (ly - y) * st.mouse_sensitivity) (-89) 89)) },
       { st with mouse := some (x, y) }) := by
  simp only [processCursorPos, h]
  norm_num

/-- After any single cursor event the pitch lies in `[-89, 89]`. -/
theorem pcp_pitch_range (c : Camera) (st : InputState) (x y : ℝ) :
    -89 ≤ (processCursorPos c st x y).1.pitch ∧
      (processCursorPos c st x y).1.pitch ≤ 89 := by
  rcases hm : st.mouse with _ | ⟨lx, ly⟩
  · rw [pcp_none c st x y hm]
    exact clamp_scalar_mem _ _ _ (by norm_num)
  · rw [pcp_some c st lx ly x y hm]
    exact clamp_scalar_mem _ _ _ (by norm_num)

/-- After any single cursor event the front vector has norm exactly 1. -/
theorem pcp_front_norm (c : Camera) (st : InputState) (x y : ℝ) :
    vnorm (processCursorPos c st x y).1.front = 1 := by
  rcases hm : st.mouse with _ | ⟨lx, ly⟩
  · rw [pcp_none c st x y hm]
    simp only
    rw [normalizeV_of_vnorm_one _ (vnorm_sphericalDir _ _)]
    exact vnorm_sphericalDir _ _
  · rw [pcp_some c st lx ly x y hm]
    simp only
    rw [normalizeV_of_vnorm_one _ (vnorm_sphericalDir _ _)]
    exact vnorm_sphericalDir _ _

/-- After any non-empty sequence of cursor events the pitch lies in
`[-89, 89]` and the front vector has norm exactly 1. -/
theorem applyMoves_inv (p : List (ℝ × ℝ)) :
    ∀ start : Camera × InputState, p ≠ [] →
      (-89 ≤ (applyMoves start p).1.pitch ∧
        (applyMoves start p).1.pitch ≤ 89) ∧
      vnorm (applyMoves start p).1.front = 1 := by
  induction p with
  | nil => intro start h; exact absurd rfl h
  | cons m rest ih =>
    intro start _
    cases rest with
    | nil =>
      simp only [applyMoves]
      exact ⟨pcp_pitch_range _ _ _ _, pcp_front_norm _ _ _ _⟩
    | cons m2 r2 =>
      have hstep : applyMoves start (m :: m2 :: r2) =
          applyMoves (processCursorPos start.1 start.2 m.1 m.2) (m2 :: r2) :=
        rfl
      rw [hstep]
      exact ih _ (by simp)

/-- C3: from any camera state with pitch in `[-89, 89]`, after every call
of any sequence of cursor events the pitch stays in `[-89, 89]`, and after
every orientation update the front vector is unit length to within
`1e-5`. -/
theorem c3_theorem (c : Camera) (st : InputState) (hlo : -89 ≤ c.pitch)
    (hhi : c.pitch ≤ 89) (p : List (ℝ × ℝ)) :
    (-89 ≤ (applyMoves (c, st) p).1.pitch ∧
      (applyMoves (c, st) p).1.pitch ≤ 89) ∧
    (p ≠ [] → |vnorm (applyMoves (c, st) p).1.front - 1| ≤ 1 / 100000) := by
  cases hp : p with
  | nil => exact ⟨⟨hlo, hhi⟩, fun h => absurd rfl h⟩
  | cons m rest =>
    have h := applyMoves_inv (m :: rest) (c, st) (by simp)
    exact ⟨h.1, fun _ => by rw [h.2]; norm_num⟩

/-- The source's initial camera (src/main.rs). -/
def camA : Camera := ⟨⟨0, 0, 3⟩, ⟨0, 0, -1⟩, ⟨0, 1, 0⟩, -90, 0⟩

/-- The source's initial input state (src/main.rs): no mouse position yet,
move speed 2.5, sensitivity 0.1. -/
def stN : InputState := ⟨none, 2.5, 0.1⟩

/-- C3 witness: the claim instantiated at the source's initial camera and
input state with a two-event mouse trail, looking at the state after the
first event. -/
theorem c3_witness :
    (-89 ≤ (applyMoves (camA, stN) [(1, 2)]).1.pitch ∧
      (applyMoves (camA, stN) [(1, 2)]).1.pitch ≤ 89) ∧
    (([(1, 2)] : List (ℝ × ℝ)) ≠ [] →
      |vnorm (applyMoves (camA, stN) [(1, 2)]).1.front - 1| ≤ 1 / 100000) :=
  c3_theorem camA stN (by norm_num [camA]) (by norm_num [camA]) [(1, 2)]

/-- A camera whose front vector does not match its yaw/pitch spherical
direction (yaw 0, pitch 0 point to `(1,0,0)` but front is `(0,0,1)`). -/
def camC4 : Camera := ⟨⟨0, 0, 0⟩, ⟨0, 0, 1⟩, ⟨0, 1, 0⟩, 0, 0⟩

/-- C4 counterexample: on the very first cursor event (empty last-mouse)
the handler still recomputes `front` from yaw and pitch, so a camera whose
front vector disagrees with its angles has its front changed by the call,
contradicting "leaves yaw, pitch, and front unchanged". -/
theorem c4_counterexample :
    stN.mouse = none ∧
    (processCursorPos camC4 stN 5 7).1.front ≠ camC4.front := by
  refine ⟨rfl, ?_⟩
  have h1 : (processCursorPos camC4 stN 5 7).1.front =
      normalizeV (sphericalDir camC4.yaw (clamp_scalar camC4.pitch (-89) 89)) := by
    rw [pcp_none camC4 stN 5 7 rfl]
  rw [h1, normalizeV_of_vnorm_one _ (vnorm_sphericalDir _ _)]
  have hclamp : clamp_scalar camC4.pitch (-89) 89 = 0 := by
    norm_num [camC4, clamp_scalar]
  rw [hclamp]
  intro h
  have hx := congrArg V3.x h
  simp [camC4, sphericalDir, to_radians] at hx

/-- C4 (amended): a cursor event on an empty last-mouse state records the
position `(x, y)` and leaves yaw unchanged and pitch merely clamped to
`[-89, 89]` (so both angles are unchanged whenever pitch was already in
range), but it still recomputes `front` from the angles — `front` is
unchanged only when it already equals that normalized spherical
direction. -/
theorem c4_theorem (c : Camera) (st : InputState) (x y : ℝ)
    (h : st.mouse = none) :
    processCursorPos c st x y =
      ({ c with
          pitch := clamp_scalar c.pitch (-89) 89,
          front := normalizeV
            (sphericalDir c.yaw (clamp_scalar c.pitch (-89) 89)) },
       { st with mouse := some (x, y) }) ∧
    (processCursorPos c st x y).1.yaw = c.yaw ∧
    (processCursorPos c st x y).2.mouse = some (x, y) := by
  refine ⟨pcp_none c st x y h, ?_, ?_⟩ <;> rw [pcp_none c st x y h]

/-- C4 witness: the amended claim at the source's initial camera and input
state with the first cursor event at `(5, 7)`. -/
theorem c4_witness :
    processCursorPos camA stN 5 7 =
      ({ camA with
          pitch := clamp_scalar camA.pitch (-89) 89,
          front := normalizeV
            (sphericalDir camA.yaw (clamp_scalar camA.pitch (-89) 89)) },
       { stN with mouse := some (5, 7) }) ∧
    (processCursorPos camA stN 5 7).1.yaw = camA.yaw ∧
    (processCursorPos camA stN 5 7).2.mouse = some (5, 7) :=
  c4_theorem camA stN 5 7 rfl

/-- C5: a cursor event on a populated last-mouse state `(lx, ly)` adds
`(x - lx) * sensitivity` to yaw, adds `(ly - y) * sensitivity` to pitch
and clamps it to `[-89, 89]`, recomputes `front` as the normalized
spherical direction of the updated angles, and records `(x, y)` as the
last mouse position. -/
theorem c5_theorem (c : Camera) (st : InputState) (lx ly x y : ℝ)
    (h : st.mouse = some (lx, ly)) :
    processCursorPos c st x y =
      ({ c with
          yaw := c.yaw + (x - lx) * st.mouse_sensitivity,
          pitch := clamp_scalar
            (c.pitch + (ly - y) * st.mouse_sensitivity) (-89) 89,
          front := normalizeV (sphericalDir
            (c.yaw + (x - lx) * st.mouse_sensitivity)
            (clamp_scalar
              (c.pitch + (ly - y) * st.mouse_sensitivity) (-89) 89)) },
       { st with mouse := some (x, y) }) :=
  pcp_some c st lx ly x y h

/-- An input state with a recorded last mouse position `(1, 2)`. -/
def stS : InputState := ⟨some (1, 2), 2.5, 0.1⟩

/-- C5 witness: the claim at a concrete camera, input state with last
mouse `(1, 2)` and a cursor event at `(3, 4)`. -/
theorem c5_witness :
    processCursorPos camA stS 3 4 =
      ({ camA with
          yaw := camA.yaw + (3 - 1) * stS.mouse_sensitivity,
          pitch := clamp_scalar
            (camA.pitch + (2 - 4) * stS.mouse_sensitivity) (-89) 89,
          front := normalizeV (sphericalDir
            (camA.yaw + (3 - 1) * stS.mouse_sensitivity)
            (clamp_scalar
              (camA.pitch + (2 - 4) * stS.mouse_sensitivity) (-89) 89)) },
       { stS with mouse := some (3, 4) }) :=
  c5_theorem camA stS 1 2 3 4 rfl

/-- The camera of the spec's movement-composition test: at the origin,
facing `(0,0,-1)`, up `(0,1,0)`. -/
def camZero : Camera := ⟨⟨0, 0, 0⟩, ⟨0, 0, -1⟩, ⟨0, 1, 0⟩, -90, 0⟩

/-- C6: `process_inputs` translates the position additively in the fixed
order W (Forward), S (Backward), A (Left), D (Right), by `+speed·front`,
`-speed·front`, `-speed·normalize(front×up)`, `+speed·normalize(front×up)`
with `speed = deltaTime * moveSpeed`, and modifies no other field; in
particular one Forward tick with `deltaTime = 1`, `moveSpeed = 2.5` from
the origin facing `(0,0,-1)` lands at `(0,0,-2.5)`. -/
theorem c6_theorem :
    (∀ (keys : Keys) (c : Camera) (st : InputState) (dt : ℝ),
      process_inputs keys c st dt =
        { c with position :=
            c.position
            + (if keys.w then (dt * st.move_speed) • c.front else 0)
            - (if keys.s then (dt * st.move_speed) • c.front else 0)
            - (if keys.a then (dt * st.move_speed) •
                normalizeV (cross c.front c.up) else 0)
            + (if keys.d then (dt * st.move_speed) •
                normalizeV (cross c.front c.up) else 0) }) ∧
    process_inputs ⟨true, false, false, false⟩ camZero stN 1 =
      { camZero with position := ⟨0, 0, -2.5⟩ } := by
  constructor
  · intro keys c st dt
    rcases keys with ⟨w, s, a, d⟩
    cases w <;> cases s <;> cases a <;> cases d <;>
      (ext <;>
        simp [process_inputs, V3.add_def, V3.sub_def, V3.smul_def,
          V3.zero_def])
  · ext <;>
      simp [process_inputs, camZero, stN, V3.add_def, V3.sub_def,
        V3.smul_def, V3.zero_def]

/-- C7: `view_matrix` is exactly the look-at transform of `position`,
`position + front`, and `up`, and is a pure function of the camera state —
two calls on the same state give identical matrices. -/
theorem c7_theorem (c : Camera) :
    c.view_matrix = look_at c.position (c.position + c.front) c.up ∧
    c.view_matrix = c.view_matrix :=
  ⟨rfl, rfl⟩

/-- C10: frame conditions — `process_inputs` changes nothing but the
position (yaw, pitch, front, up and the input state's fields are
untouched), the cursor handler changes neither position nor up nor the
input state's tuning fields; hence no camera operation ever modifies `up`
after construction. -/
theorem c10_theorem :
    (∀ (keys : Keys) (c : Camera) (st : InputState) (dt : ℝ),
      (process_inputs keys c st dt).yaw = c.yaw ∧
      (process_inputs keys c st dt).pitch = c.pitch ∧
      (process_inputs keys c st dt).front = c.front ∧
      (process_inputs keys c st dt).up = c.up) ∧
    (∀ (c : Camera) (st : InputState) (x y : ℝ),
      (processCursorPos c st x y).1.position = c.position ∧
      (processCursorPos c st x y).1.up = c.up ∧
      (processCursorPos c st x y).2.move_speed = st.move_speed ∧
      (processCursorPos c st x y).2.mouse_sensitivity =
        st.mouse_sensitivity) := by
  constructor
  · intro keys c st dt
    refine ⟨?_, ?_, ?_, ?_⟩ <;> simp [process_inputs]
  · intro c st x y
    rcases hm : st.mouse with _ | ⟨lx, ly⟩
    · rw [pcp_none c st x y hm]
      exact ⟨rfl, rfl, rfl, rfl⟩
    · rw [pcp_some c st lx ly x y hm]
      exact ⟨rfl, rfl, rfl, rfl⟩
